import Mathlib

/-!
Verification of the sysrepo-plugin-system sources against their
specification.

The embedding covers:
* `src/data/ip_address.c` — the IP-address value type in its two build
  configurations: Mode A ("structured", compiled when `SYSTEMD` is defined,
  storing binary address bytes) and Mode B ("plain", storing an owned
  C string).  The struct declaration lives in `ip_address.h`, which is not
  part of the provided sources; its layout is fully determined by the use
  sites in `ip_address.c` (`address->family`, `address->value.v4`,
  `address->value.v6`, `address->value` as `char *`) together with §3 of the
  specification.
* `src/core/api.cpp` — `SystemState::getClockInfo`, modelled over an
  explicit environment supplying the results of `time`, `localtime` and
  `sysinfo`.

Library calls (`inet_ntop`, `snprintf`, `localtime`, `strftime`) are
modelled after their documented glibc behaviour, since the target platform
is Linux/glibc (the code uses `sys/sysinfo.h` and a `SYSTEMD` build mode).
-/

/-- The NUL terminator byte written by the C string functions. -/
def nulChar : Char := Char.ofNat 0

/-- Writing the NUL-terminated string `s` at the start of buffer `buf`
(as `strcpy` into a caller-supplied array does): bytes past position
`s.length` keep their previous contents. -/
def writeCStr (s : List Char) (buf : List Char) : List Char :=
  s ++ nulChar :: buf.drop (s.length + 1)

/-- `AF_INET` (Linux value). -/
def AF_INET : Nat := 2

/-- `AF_INET6` (Linux value). -/
def AF_INET6 : Nat := 10

/-- `AF_UNSPEC` (Linux value); this is the family of a zeroed struct. -/
def AF_UNSPEC : Nat := 0

/-- Mode A (`SYSTEMD` defined) `system_ip_address_t`: an address family tag
and the union `value` holding raw address bytes (`v4` is the first 4 bytes,
`v6` is all 16). -/
structure system_ip_address_A where
  family : Nat
  value : List Nat
deriving DecidableEq, Repr

/-- Mode B (`SYSTEMD` not defined) `system_ip_address_t`: an address family
tag and `value`, a `char *` that is either `NULL` (`none`) or an owned
NUL-terminated string (`some s`, `s` excluding the terminator). -/
structure system_ip_address_B where
  family : Nat
  value : Option (List Char)
deriving DecidableEq, Repr

/-- `system_ip_address_init`, Mode A: `*address = (system_ip_address_t){0}`
zeroes the struct — family `AF_UNSPEC` (= 0), all 16 value bytes 0. -/
def system_ip_address_init_A : system_ip_address_A :=
  { family := AF_UNSPEC, value := List.replicate 16 0 }

/-- `system_ip_address_init`, Mode B: zeroing the struct gives family
`AF_UNSPEC` and a `NULL` value pointer. -/
def system_ip_address_init_B : system_ip_address_B :=
  { family := AF_UNSPEC, value := none }

/-- Decimal digits of `n` (the `%u` conversion). -/
def decChars (n : Nat) : List Char := Nat.toDigits 10 n

/-- The text produced by glibc `inet_ntop4` for the 4 source bytes:
`sprintf(tmp, "%u.%u.%u.%u", src[0], src[1], src[2], src[3])`. -/
def inet_ntop4_text (b : List Nat) : List Char :=
  decChars (b.getD 0 0) ++ '.' :: decChars (b.getD 1 0) ++ '.' ::
    decChars (b.getD 2 0) ++ '.' :: decChars (b.getD 3 0)

/-- glibc `inet_ntop` for `AF_INET`: formats into a private buffer first and
copies it out only when it fits (`strlen(tmp) >= size` fails with `ENOSPC`
and leaves the caller's buffer untouched).  `none` models a `NULL` return. -/
def inet_ntop4 (b : List Nat) (buf : List Char) (size : Nat) :
    Option (List Char) :=
  let t := inet_ntop4_text b
  if t.length < size then some (writeCStr t buf) else none

/-- The eight 16-bit groups of an IPv6 address, big-endian pairs of bytes. -/
def words16 (b : List Nat) : List Nat :=
  (List.range 8).map (fun i => b.getD (2 * i) 0 * 256 + b.getD (2 * i + 1) 0)

/-- One pass of glibc `inet_ntop6`'s zero-run scan: walking the words with
current index `i`, accumulating the best run so far and the run in
progress (`none` models `base == -1`). -/
def scanRuns (ws : List Nat) (i : Nat) (best cur : Option (Nat × Nat)) :
    Option (Nat × Nat) × Option (Nat × Nat) :=
  match ws with
  | [] => (best, cur)
  | w :: rest =>
    if w = 0 then
      match cur with
      | none => scanRuns rest (i + 1) best (some (i, 1))
      | some (cb, cl) => scanRuns rest (i + 1) best (some (cb, cl + 1))
    else
      match cur with
      | none => scanRuns rest (i + 1) best none
      | some (cb, cl) =>
        match best with
        | none => scanRuns rest (i + 1) (some (cb, cl)) none
        | some (bb, bl) =>
          scanRuns rest (i + 1)
            (if bl < cl then some (cb, cl) else some (bb, bl)) none

/-- The best run of zero words chosen by glibc `inet_ntop6` (start index and
length), `none` when no run of length at least 2 exists. -/
def bestRun (ws : List Nat) : Option (Nat × Nat) :=
  let s := scanRuns ws 0 none none
  let best :=
    match s.2 with
    | none => s.1
    | some (cb, cl) =>
      match s.1 with
      | none => some (cb, cl)
      | some (bb, bl) => if bl < cl then some (cb, cl) else some (bb, bl)
  match best with
  | some (bb, bl) => if bl < 2 then none else some (bb, bl)
  | none => none

/-- Is word index `i` inside the chosen zero run? -/
def inRun (best : Option (Nat × Nat)) (i : Nat) : Bool :=
  match best with
  | some (bb, bl) => decide (bb ≤ i) && decide (i < bb + bl)
  | none => false

/-- Is word index `i` the first word of the chosen zero run? -/
def isRunBase (best : Option (Nat × Nat)) (i : Nat) : Bool :=
  match best with
  | some (bb, _) => i == bb
  | none => false

/-- The `':'` glibc appends after the loop when the zero run extends to the
end of the address. -/
def trailingColon (best : Option (Nat × Nat)) : List Char :=
  match best with
  | some (bb, bl) => if bb + bl = 8 then [':'] else []
  | none => []

/-- glibc's test for printing the tail as an embedded IPv4 address
(`::a.b.c.d` / `::ffff:a.b.c.d`). -/
def v4Special (best : Option (Nat × Nat)) (ws : List Nat) : Bool :=
  match best with
  | some (bb, bl) =>
    bb == 0 &&
      (bl == 6 || (bl == 7 && ws.getD 7 0 != 1) ||
        (bl == 5 && ws.getD 5 0 == 65535))
  | none => false

/-- Lowercase hex digits of `n` (the `%x` conversion). -/
def hexWord (n : Nat) : List Char := Nat.toDigits 16 n

/-- The emission loop of glibc `inet_ntop6`, from word index `i` on; `fuel`
bounds the recursion (`9 - i` at the top call).  Index 8 stands for the
code after the loop (the possible trailing `':'`); hitting the embedded-IPv4
case emits the dotted quad and breaks straight to that code. -/
def ntop6_emit (ws src4 : List Nat) (best : Option (Nat × Nat)) :
    Nat → Nat → List Char
  | _, 0 => []
  | i, fuel + 1 =>
    if 8 ≤ i then trailingColon best
    else if inRun best i then
      (if isRunBase best i then [':'] else []) ++
        ntop6_emit ws src4 best (i + 1) fuel
    else
      (if i ≠ 0 then [':'] else []) ++
        (if i = 6 && v4Special best ws then
          inet_ntop4_text src4 ++ trailingColon best
        else hexWord (ws.getD i 0) ++ ntop6_emit ws src4 best (i + 1) fuel)

/-- The text produced by glibc `inet_ntop6` for the 16 source bytes. -/
def inet_ntop6_text (b : List Nat) : List Char :=
  ntop6_emit (words16 b) (b.drop 12) (bestRun (words16 b)) 0 9

/-- glibc `inet_ntop` for `AF_INET6`: formats into a private buffer and fails
with `ENOSPC` (buffer untouched) unless the text and its terminator fit. -/
def inet_ntop6 (b : List Nat) (buf : List Char) (size : Nat) :
    Option (List Char) :=
  let t := inet_ntop6_text b
  if t.length < size then some (writeCStr t buf) else none

/-- `system_ip_address_to_str`, Mode A (`SYSTEMD` defined).  Returns the
result code and the buffer contents afterwards.  The `AF_INET6` case
mirrors the source exactly: a successful `inet_ntop` only `break`s out of
the `switch`, so control falls through to the final `return -1`. -/
def system_ip_address_to_str_A (address : system_ip_address_A)
    (buf : List Char) (buffer_size : Nat) : Int × List Char :=
  if address.family = AF_INET then
    match inet_ntop4 (address.value.take 4) buf buffer_size with
    | none => (-1, buf)
    | some b => (0, b)
  else if address.family = AF_INET6 then
    match inet_ntop6 (address.value.take 16) buf buffer_size with
    | none => (-1, buf)
    | some b => (-1, b)
  else (-1, buf)

/-- The string glibc's `%s` conversion reads from a `char *` argument: the
pointed-to text, or the literal `"(null)"` for a `NULL` pointer (glibc's
`vfprintf` special case). -/
def cStrOf (v : Option (List Char)) : List Char :=
  match v with
  | none => ['(', 'n', 'u', 'l', 'l', ')']
  | some s => s

/-- glibc `snprintf(buffer, size, "%s", arg)`: writes at most `size - 1`
characters plus a terminator (nothing at all when `size = 0`) and returns
the length the full output would have had. -/
def snprintf_s (arg : Option (List Char)) (buf : List Char) (size : Nat) :
    Int × List Char :=
  let s := cStrOf arg
  if size = 0 then ((s.length : Int), buf)
  else
    let w := s.take (size - 1)
    ((s.length : Int), w ++ nulChar :: buf.drop (w.length + 1))

/-- `system_ip_address_to_str`, Mode B (`SYSTEMD` not defined):
`if (snprintf(buffer, buffer_size, "%s", address->value) > 0) return 0;`
followed by the final `return -1`. -/
def system_ip_address_to_str_B (address : system_ip_address_B)
    (buf : List Char) (buffer_size : Nat) : Int × List Char :=
  let r := snprintf_s address.value buf buffer_size
  if 0 < r.1 then (0, r.2) else (-1, r.2)

/-- `system_ip_address_free`, Mode A (`SYSTEMD` defined): no `free` call is
compiled in; the struct is re-initialised.  The second component counts the
`free` calls performed (always 0 here). -/
def system_ip_address_free_A (_address : system_ip_address_A) :
    system_ip_address_A × Nat :=
  (system_ip_address_init_A, 0)

/-- `system_ip_address_free`, Mode B: `free(value)` when the pointer is
non-`NULL`, then re-initialisation.  The second component counts the `free`
calls performed. -/
def system_ip_address_free_B (address : system_ip_address_B) :
    system_ip_address_B × Nat :=
  (system_ip_address_init_B,
    match address.value with
    | some _ => 1
    | none => 0)

/-- The broken-down time produced by `localtime` (`struct tm`), keeping the
C conventions: `tm_year` counts years since 1900, `tm_mon` runs 0–11. -/
structure tm where
  tm_sec : Nat
  tm_min : Nat
  tm_hour : Nat
  tm_mday : Nat
  tm_mon : Nat
  tm_year : Nat
deriving DecidableEq, Repr

/-- Two decimal digits with zero padding (the `%d`/`%m`/`%H`/`%M`/`%S`
conversions of `strftime`, whose values are always below 100). -/
def pad2 (n : Nat) : List Char :=
  [Nat.digitChar (n / 10 % 10), Nat.digitChar (n % 10)]

/-- Four decimal digits (the `%Y` conversion for years 1000–9999; the
reachable years are proved to lie in this range wherever it matters). -/
def pad4 (n : Nat) : List Char :=
  [Nat.digitChar (n / 1000 % 10), Nat.digitChar (n / 100 % 10),
    Nat.digitChar (n / 10 % 10), Nat.digitChar (n % 10)]

/-- The characters `strftime` produces for the format `"%FT%TZ"`
(equivalently `"%Y-%m-%dT%H:%M:%SZ"`: `%F` is `%Y-%m-%d`, `%T` is
`%H:%M:%S`). -/
def strftimeChars (ts : tm) : List Char :=
  pad4 (ts.tm_year + 1900) ++ '-' :: (pad2 (ts.tm_mon + 1) ++ '-' ::
    (pad2 ts.tm_mday ++ 'T' :: (pad2 ts.tm_hour ++ ':' ::
      (pad2 ts.tm_min ++ ':' :: (pad2 ts.tm_sec ++ ['Z'])))))

/-- `strftime(buf, 256, "%FT%TZ", ts)` as used by `getClockInfo`, returning
the formatted text as the `std::string` the caller builds from the buffer
(the 256-byte buffer always fits this 20-character format). -/
def strftimeFTZ (ts : tm) : String := String.mk (strftimeChars ts)

/-- The record `SystemState::getClockInfo` returns (`ClockInfo` from
`core/types.hpp`, built by the return statement in `api.cpp`). -/
structure ClockInfo where
  BootDatetime : String
  CurrentDatetime : String
deriving DecidableEq, Repr

/-- The host environment `getClockInfo` reads: the value `time(NULL)`
returns, the `localtime` table (`none` models a `NULL` return), and the
`sysinfo` uptime (`none` models a failing `sysinfo` call). -/
structure ClockEnv where
  timeNow : Int
  localtimeFn : Int → Option tm
  sysinfoUptime : Option Int

/-- `SystemState::getClockInfo` from `src/core/api.cpp`, with thrown
`std::runtime_error`s modelled as `Except.error` carrying the message. -/
def getClockInfo (env : ClockEnv) : Except String ClockInfo :=
  let now := env.timeNow
  match env.localtimeFn now with
  | none => .error "Failed to get current datetime."
  | some ts =>
    let current_datetime := strftimeFTZ ts
    match env.sysinfoUptime with
    | none => .error "Failed to get system uptime."
    | some uptime_seconds =>
      let diff := now - uptime_seconds
      match env.localtimeFn diff with
      | none => .error "Failed to get boot datetime."
      | some ts2 =>
        .ok { BootDatetime := strftimeFTZ ts2,
              CurrentDatetime := current_datetime }

/-- Gregorian leap-year rule. -/
def isLeap (y : Nat) : Bool :=
  y % 4 == 0 && (y % 100 != 0 || y % 400 == 0)

/-- Days in month `m` of year `y` (months numbered 1–12). -/
def daysInMonth (y m : Nat) : Nat :=
  if m = 2 then (if isLeap y then 29 else 28)
  else if m = 4 ∨ m = 6 ∨ m = 9 ∨ m = 11 then 30
  else 31

/-- A civil calendar date. -/
structure Date where
  year : Nat
  month : Nat
  day : Nat
deriving DecidableEq, Repr

/-- The day after `dt` in the civil calendar. -/
def nextDay (dt : Date) : Date :=
  if dt.day < daysInMonth dt.year dt.month then
    { dt with day := dt.day + 1 }
  else if dt.month < 12 then { year := dt.year, month := dt.month + 1, day := 1 }
  else { year := dt.year + 1, month := 1, day := 1 }

/-- The civil date `n` days after the Unix epoch 1970-01-01. -/
def dateOfDay (n : Nat) : Date :=
  Nat.iterate nextDay n { year := 1970, month := 1, day := 1 }

/-- Broken-down time for `n` seconds after the Unix epoch: the conversion
`localtime` performs once the timezone offset has been added. -/
def civilOfSecs (n : Nat) : tm :=
  let d := dateOfDay (n / 86400)
  let r := n % 86400
  { tm_sec := r % 60, tm_min := r / 60 % 60, tm_hour := r / 3600,
    tm_mday := d.day, tm_mon := d.month - 1, tm_year := d.year - 1900 }

/-- `localtime` under timezone-offset function `off` (seconds east of UTC,
possibly time-dependent — daylight-saving rules make it so): it converts
`t + off t` to civil time.  Times before the epoch are clamped; every use
below constrains the argument to be non-negative. -/
def localtimeAt (off : Int → Int) (t : Int) : Option tm :=
  some (civilOfSecs (t + off t).toNat)

/-- Lexicographic order on character lists (strict part); this is exactly
the order underlying `String`'s `<`. -/
def lexLt (a b : List Char) : Prop := List.Lex (· < ·) a b

/-- Lexicographic order on character lists (reflexive closure). -/
def lexLe (a b : List Char) : Prop := lexLt a b ∨ a = b

theorem lexLe_refl (a : List Char) : lexLe a a := Or.inr rfl

theorem lex_append_left {a b : List Char} (c d : List Char)
    (hlen : a.length = b.length) (h : lexLt a b) : lexLt (a ++ c) (b ++ d) := by
  induction h with
  | nil => simp at hlen
  | rel h => exact List.Lex.rel h
  | cons _ ih => exact List.Lex.cons (ih (by simpa using hlen))

theorem lex_append_same {c d : List Char} (a : List Char) (h : lexLt c d) :
    lexLt (a ++ c) (a ++ d) := by
  induction a with
  | nil => simpa using h
  | cons x xs ih => exact List.Lex.cons ih

theorem lexLe_append_same {c d : List Char} (a : List Char) (h : lexLe c d) :
    lexLe (a ++ c) (a ++ d) := by
  rcases h with h | h
  · exact Or.inl (lex_append_same a h)
  · exact Or.inr (by rw [h])

theorem lexLe_cons {c d : List Char} (x : Char) (h : lexLe c d) :
    lexLe (x :: c) (x :: d) := by
  rcases h with h | h
  · exact Or.inl (List.Lex.cons h)
  · exact Or.inr (by rw [h])

theorem digitChar_lt_digitChar :
    ∀ a < 10, ∀ b < 10, a < b → Nat.digitChar a < Nat.digitChar b := by
  decide

theorem pad2_lt {m n : Nat} (h : m < n) (hn : n ≤ 99) :
    lexLt (pad2 m) (pad2 n) := by
  have hm10 : m / 10 ≤ n / 10 := Nat.div_le_div_right (Nat.le_of_lt h)
  have hn10 : n / 10 ≤ 9 := by omega
  rcases Nat.lt_or_ge (m / 10) (n / 10) with h10 | h10
  · refine List.Lex.rel ?_
    have hmod : m / 10 % 10 = m / 10 := Nat.mod_eq_of_lt (by omega)
    have hnod : n / 10 % 10 = n / 10 := Nat.mod_eq_of_lt (by omega)
    rw [hmod, hnod]
    exact digitChar_lt_digitChar _ (by omega) _ (by omega) h10
  · have heq : m / 10 = n / 10 := Nat.le_antisymm hm10 h10
    have hlast : m % 10 < n % 10 := by omega
    unfold pad2
    rw [heq]
    refine List.Lex.cons (List.Lex.rel ?_)
    exact digitChar_lt_digitChar _ (by omega) _ (by omega) hlast

theorem pad2_le {m n : Nat} (h : m ≤ n) (hn : n ≤ 99) :
    lexLe (pad2 m) (pad2 n) := by
  rcases Nat.lt_or_ge m n with hlt | hge
  · exact Or.inl (pad2_lt hlt hn)
  · have : m = n := by omega
    exact Or.inr (by rw [this])

theorem pad2_length (n : Nat) : (pad2 n).length = 2 := rfl

theorem pad4_eq_pad2_append (n : Nat) :
    pad4 n = pad2 (n / 100) ++ pad2 (n % 100) := by
  unfold pad4 pad2
  have h1 : n / 100 / 10 % 10 = n / 1000 % 10 := by
    rw [Nat.div_div_eq_div_mul]
  have h2 : n / 100 % 10 = n / 100 % 10 := rfl
  have h3 : n % 100 / 10 % 10 = n / 10 % 10 := by omega
  have h4 : n % 100 % 10 = n % 10 := Nat.mod_mod_of_dvd n (by omega)
  simp [h1, h3, h4]

theorem pad4_lt {m n : Nat} (h : m < n) (hn : n ≤ 9999) :
    lexLt (pad4 m) (pad4 n) := by
  rw [pad4_eq_pad2_append, pad4_eq_pad2_append]
  rcases Nat.lt_or_ge (m / 100) (n / 100) with h100 | h100
  · exact lex_append_left _ _ (by simp [pad2_length])
      (pad2_lt h100 (by omega))
  · have heq : m / 100 = n / 100 := by
      have : m / 100 ≤ n / 100 := Nat.div_le_div_right (Nat.le_of_lt h)
      omega
    rw [heq]
    exact lex_append_same _ (pad2_lt (by omega) (by omega))

theorem pad4_le {m n : Nat} (h : m ≤ n) (hn : n ≤ 9999) :
    lexLe (pad4 m) (pad4 n) := by
  rcases Nat.lt_or_ge m n with hlt | hge
  · exact Or.inl (pad4_lt hlt hn)
  · have : m = n := by omega
    exact Or.inr (by rw [this])

theorem pad4_length (n : Nat) : (pad4 n).length = 4 := rfl

/-- Lexicographic (year, month, day) order on civil dates. -/
def dateLt (a b : Date) : Prop :=
  a.year < b.year ∨
    (a.year = b.year ∧
      (a.month < b.month ∨ (a.month = b.month ∧ a.day < b.day)))

theorem dateLt_trans {a b c : Date} (h1 : dateLt a b) (h2 : dateLt b c) :
    dateLt a c := by
  unfold dateLt at h1 h2 ⊢
  omega

theorem daysInMonth_le_31 (y m : Nat) : daysInMonth y m ≤ 31 := by
  unfold daysInMonth
  split
  · split <;> omega
  · split <;> omega

theorem nextDay_dateLt (d : Date) : dateLt d (nextDay d) := by
  unfold nextDay dateLt
  split
  · simp
  · split <;> simp

theorem nextDay_year_le (d : Date) : d.year ≤ (nextDay d).year := by
  unfold nextDay
  split
  · simp
  · split <;> simp

theorem dateOfDay_succ (n : Nat) :
    dateOfDay (n + 1) = nextDay (dateOfDay n) :=
  Function.iterate_succ_apply' nextDay n _

theorem dateOfDay_lt {m n : Nat} (h : m < n) :
    dateLt (dateOfDay m) (dateOfDay n) := by
  induction n with
  | zero => omega
  | succ k ih =>
    rcases Nat.lt_or_ge m k with hk | hk
    · exact dateLt_trans (ih hk) (by rw [dateOfDay_succ]; exact nextDay_dateLt _)
    · have hmk : m = k := by omega
      subst hmk
      rw [dateOfDay_succ]
      exact nextDay_dateLt _

theorem dateOfDay_year_ge (n : Nat) : 1970 ≤ (dateOfDay n).year := by
  induction n with
  | zero => exact Nat.le_refl 1970
  | succ k ih =>
    rw [dateOfDay_succ]
    exact le_trans ih (nextDay_year_le _)

theorem dateOfDay_valid (n : Nat) :
    1 ≤ (dateOfDay n).month ∧ (dateOfDay n).month ≤ 12 ∧
      1 ≤ (dateOfDay n).day ∧ (dateOfDay n).day ≤ 31 := by
  induction n with
  | zero => refine ⟨?_, ?_, ?_, ?_⟩ <;> decide
  | succ k ih =>
    rw [dateOfDay_succ]
    have h31 := daysInMonth_le_31 (dateOfDay k).year (dateOfDay k).month
    unfold nextDay
    split
    · simp
      all_goals omega
    · split
      · simp
        all_goals omega
      · simp

theorem lexLt_field2 {m n : Nat} (h : m < n) (hn : n ≤ 99)
    (c d : List Char) : lexLt (pad2 m ++ c) (pad2 n ++ d) :=
  lex_append_left c d (by rw [pad2_length, pad2_length]) (pad2_lt h hn)

theorem strftimeChars_civil (t : Nat)
    (hy : 1900 ≤ (dateOfDay (t / 86400)).year)
    (hm : 1 ≤ (dateOfDay (t / 86400)).month) :
    strftimeChars (civilOfSecs t) =
      pad4 (dateOfDay (t / 86400)).year ++ '-' ::
        (pad2 (dateOfDay (t / 86400)).month ++ '-' ::
          (pad2 (dateOfDay (t / 86400)).day ++ 'T' ::
            (pad2 (t % 86400 / 3600) ++ ':' ::
              (pad2 (t % 86400 / 60 % 60) ++ ':' ::
                (pad2 (t % 86400 % 60) ++ ['Z']))))) := by
  simp only [strftimeChars, civilOfSecs]
  rw [Nat.sub_add_cancel hy, Nat.sub_add_cancel hm]

theorem civil_mono {t1 t2 : Nat} (h : t1 ≤ t2)
    (hy : (dateOfDay (t2 / 86400)).year ≤ 9999) :
    lexLe (strftimeChars (civilOfSecs t1)) (strftimeChars (civilOfSecs t2)) := by
  have hq : t1 / 86400 ≤ t2 / 86400 := Nat.div_le_div_right h
  obtain ⟨hm1a, hm1b, _, hd1b⟩ := dateOfDay_valid (t1 / 86400)
  obtain ⟨hm2a, hm2b, _, hd2b⟩ := dateOfDay_valid (t2 / 86400)
  have hy1 := dateOfDay_year_ge (t1 / 86400)
  have hy2 := dateOfDay_year_ge (t2 / 86400)
  rw [strftimeChars_civil t1 (by omega) hm1a,
    strftimeChars_civil t2 (by omega) hm2a]
  rcases Nat.lt_or_ge (t1 / 86400) (t2 / 86400) with hqlt | hqge
  · rcases dateOfDay_lt hqlt with hylt | ⟨hyeq, hmlt | ⟨hmeq, hdlt⟩⟩
    · exact Or.inl (lex_append_left _ _
        (by rw [pad4_length, pad4_length]) (pad4_lt hylt hy))
    · rw [hyeq]
      refine Or.inl (lex_append_same _ (List.Lex.cons ?_))
      exact lexLt_field2 hmlt (by omega) _ _
    · rw [hyeq, hmeq]
      refine Or.inl (lex_append_same _ (List.Lex.cons
        (lex_append_same _ (List.Lex.cons ?_))))
      exact lexLt_field2 hdlt (by omega) _ _
  · have hqeq : t1 / 86400 = t2 / 86400 := by omega
    rw [hqeq]
    refine lexLe_append_same _ (lexLe_cons _ (lexLe_append_same _
      (lexLe_cons _ (lexLe_append_same _ (lexLe_cons _ ?_)))))
    rcases Nat.lt_or_ge (t1 % 86400 / 3600) (t2 % 86400 / 3600) with hh | hh
    · exact Or.inl (lexLt_field2 hh (by omega) _ _)
    · have hheq : t1 % 86400 / 3600 = t2 % 86400 / 3600 := by omega
      rw [hheq]
      refine lexLe_append_same _ (lexLe_cons _ ?_)
      rcases Nat.lt_or_ge (t1 % 86400 / 60 % 60) (t2 % 86400 / 60 % 60)
        with hmi | hmi
      · exact Or.inl (lexLt_field2 hmi (by omega) _ _)
      · have hmieq : t1 % 86400 / 60 % 60 = t2 % 86400 / 60 % 60 := by omega
        rw [hmieq]
        refine lexLe_append_same _ (lexLe_cons _ ?_)
        rcases Nat.lt_or_ge (t1 % 86400 % 60) (t2 % 86400 % 60) with hs | hs
        · exact Or.inl (lexLt_field2 hs (by omega) _ _)
        · have hseq : t1 % 86400 % 60 = t2 % 86400 % 60 := by omega
          rw [hseq]
          exact lexLe_refl _

theorem string_le_of_lexLe {a b : List Char} (h : lexLe a b) :
    String.mk a ≤ String.mk b := by
  rcases h with h | h
  · exact le_of_lt (String.lt_iff_toList_lt.mpr h)
  · exact le_of_eq (congrArg String.mk h)

theorem string_lt_of_lexLt {a b : List Char} (h : lexLt a b) :
    String.mk a < String.mk b :=
  String.lt_iff_toList_lt.mpr h

theorem snprintf_fst (arg : Option (List Char)) (buf : List Char)
    (size : Nat) :
    (snprintf_s arg buf size).1 = ((cStrOf arg).length : Int) := by
  unfold snprintf_s
  split <;> rfl

theorem snprintf_frame (arg : Option (List Char)) (buf : List Char)
    (size : Nat) :
    ((snprintf_s arg buf size).2).drop size = buf.drop size := by
  unfold snprintf_s
  by_cases h0 : size = 0
  · rw [if_pos h0]
  · rw [if_neg h0]
    have hw : ((cStrOf arg).take (size - 1)).length ≤ size - 1 := by
      rw [List.length_take]
      exact min_le_left _ _
    rw [List.drop_append_eq_append_drop,
      List.drop_eq_nil_of_le (by omega), List.nil_append]
    obtain ⟨k, hk⟩ :
        ∃ k, size - ((cStrOf arg).take (size - 1)).length = k + 1 :=
      ⟨size - ((cStrOf arg).take (size - 1)).length - 1, by omega⟩
    rw [hk, List.drop_succ_cons, List.drop_drop]
    congr 1
    omega

theorem to_str_B_fst (b : system_ip_address_B) (buf : List Char)
    (size : Nat) :
    (system_ip_address_to_str_B b buf size).1 =
      (if 0 < (cStrOf b.value).length then 0 else -1) := by
  show (if 0 < (snprintf_s b.value buf size).1 then
      ((0 : Int), (snprintf_s b.value buf size).2)
    else (-1, (snprintf_s b.value buf size).2)).1 =
      (if 0 < (cStrOf b.value).length then 0 else -1)
  rw [snprintf_fst]
  by_cases h : 0 < (cStrOf b.value).length
  · rw [if_pos (Int.natCast_pos.mpr h), if_pos h]
  · rw [if_neg (fun hc => h (Int.natCast_pos.mp hc)), if_neg h]

/-- C1: the spec says an IPv6 address formats successfully (result 0) into a
large-enough buffer, and the all-zero value yields `"::"`.  The code does
write `"::"` but the `AF_INET6` arm of the `switch` lacks a `return 0` (the
`AF_INET` arm has one), so control falls through to the trailing
`return -1`: the colon-hex text is in the buffer, yet the call reports
failure. -/
theorem C1_ipv6_returns_error :
    system_ip_address_to_str_A
        { family := AF_INET6, value := List.replicate 16 0 }
        (List.replicate 46 ' ') 46 =
      (-1, ':' :: ':' :: nulChar :: List.replicate 43 ' ') := by
  decide

/-- C10: in the structured build mode, any family other than `AF_INET` and
`AF_INET6` makes `toString` return -1 and leave the buffer untouched. -/
theorem C10_unknown_family (a : system_ip_address_A) (buf : List Char)
    (size : Nat) (h4 : a.family ≠ AF_INET) (h6 : a.family ≠ AF_INET6) :
    system_ip_address_to_str_A a buf size = (-1, buf) := by
  unfold system_ip_address_to_str_A
  rw [if_neg h4, if_neg h6]

/-- C10 witness: family 0 (`AF_UNSPEC`) with a concrete buffer. -/
theorem C10_unknown_family_witness :
    system_ip_address_to_str_A { family := 0, value := List.replicate 16 7 }
        (List.replicate 5 'x') 5 = (-1, List.replicate 5 'x') :=
  C10_unknown_family _ _ _ (by decide) (by decide)

/-- C9: `toString` is deterministic in both build modes: componentwise-equal
inputs produce identical result codes and identical buffer contents. -/
theorem C9_deterministic (a1 a2 : system_ip_address_A)
    (b1 b2 : system_ip_address_B) (bufA1 bufA2 bufB1 bufB2 : List Char)
    (sA1 sA2 sB1 sB2 : Nat)
    (hAf : a1.family = a2.family) (hAv : a1.value = a2.value)
    (hAbuf : bufA1 = bufA2) (hAs : sA1 = sA2)
    (hBf : b1.family = b2.family) (hBv : b1.value = b2.value)
    (hBbuf : bufB1 = bufB2) (hBs : sB1 = sB2) :
    system_ip_address_to_str_A a1 bufA1 sA1 =
        system_ip_address_to_str_A a2 bufA2 sA2 ∧
      system_ip_address_to_str_B b1 bufB1 sB1 =
        system_ip_address_to_str_B b2 bufB2 sB2 := by
  obtain ⟨fA1, vA1⟩ := a1
  obtain ⟨fA2, vA2⟩ := a2
  obtain ⟨fB1, vB1⟩ := b1
  obtain ⟨fB2, vB2⟩ := b2
  simp only at hAf hAv hBf hBv
  subst hAf hAv hAbuf hAs hBf hBv hBbuf hBs
  exact ⟨rfl, rfl⟩

/-- C9 witness: both modes at a concrete equal pair of inputs. -/
theorem C9_deterministic_witness :
    system_ip_address_to_str_A { family := 2, value := [1, 2, 3, 4] }
        (List.replicate 16 ' ') 16 =
      system_ip_address_to_str_A { family := 2, value := [1, 2, 3, 4] }
        (List.replicate 16 ' ') 16 ∧
    system_ip_address_to_str_B { family := 0, value := some ['a'] }
        (List.replicate 4 ' ') 4 =
      system_ip_address_to_str_B { family := 0, value := some ['a'] }
        (List.replicate 4 ' ') 4 :=
  C9_deterministic _ _ _ _ _ _ _ _ _ _ _ _
    rfl rfl rfl rfl rfl rfl rfl rfl

/-- C4: `release` is idempotent in both build modes: one call resets the
value to the `init` state; its Mode B `free` count is at most 1, and a
second call performs no `free` at all and keeps the `init` state. -/
theorem C4_release_idempotent :
    (∀ a : system_ip_address_A,
        (system_ip_address_free_A a).1 = system_ip_address_init_A ∧
        (system_ip_address_free_A a).2 = 0 ∧
        system_ip_address_free_A (system_ip_address_free_A a).1 =
          (system_ip_address_init_A, 0)) ∧
    (∀ b : system_ip_address_B,
        (system_ip_address_free_B b).1 = system_ip_address_init_B ∧
        (system_ip_address_free_B b).2 ≤ 1 ∧
        system_ip_address_free_B (system_ip_address_free_B b).1 =
          (system_ip_address_init_B, 0)) := by
  constructor
  · intro a
    exact ⟨rfl, rfl, rfl⟩
  · intro b
    refine ⟨rfl, ?_, rfl⟩
    unfold system_ip_address_free_B
    cases b.value <;> simp

/-- C8: structured mode, family `AF_INET`, bytes 127.0.0.1: with a buffer
of capacity at least 10 (nine characters plus the terminator), `toString`
writes exactly "127.0.0.1" and returns 0. -/
theorem C8_ipv4_format (rest : List Nat) (buf : List Char) (size : Nat)
    (h : 10 ≤ size) :
    system_ip_address_to_str_A
        { family := AF_INET, value := [127, 0, 0, 1] ++ rest } buf size =
      (0, ['1', '2', '7', '.', '0', '.', '0', '.', '1'] ++
        nulChar :: buf.drop 10) := by
  have htake : (([127, 0, 0, 1] ++ rest) : List Nat).take 4 =
      [127, 0, 0, 1] := rfl
  have hntop : inet_ntop4 (([127, 0, 0, 1] ++ rest).take 4) buf size =
      some (writeCStr ['1', '2', '7', '.', '0', '.', '0', '.', '1'] buf) := by
    unfold inet_ntop4
    rw [htake]
    rw [show inet_ntop4_text [127, 0, 0, 1] =
      ['1', '2', '7', '.', '0', '.', '0', '.', '1'] from by decide]
    rw [if_pos (show (['1', '2', '7', '.', '0', '.', '0', '.', '1'] :
      List Char).length < size by
        have h9 : (['1', '2', '7', '.', '0', '.', '0', '.', '1'] :
          List Char).length = 9 := rfl
        omega)]
  unfold system_ip_address_to_str_A
  dsimp only
  rw [if_pos (rfl : AF_INET = AF_INET), hntop]
  rfl

/-- C8 witness: a concrete buffer of capacity 10. -/
theorem C8_ipv4_format_witness :
    system_ip_address_to_str_A
        { family := AF_INET, value := [127, 0, 0, 1] ++ List.replicate 12 0 }
        (List.replicate 10 ' ') 10 =
      (0, ['1', '2', '7', '.', '0', '.', '0', '.', '1'] ++
        nulChar :: List.replicate 0 ' ') :=
  C8_ipv4_format (List.replicate 12 0) (List.replicate 10 ' ') 10
    (by decide)

/-- C7: plain-text mode, `value` the owned string "10.0.0.1": with a buffer
of capacity at least 9, `toString` copies exactly "10.0.0.1" and returns 0,
whatever the `family` field holds. -/
theorem C7_plain_copy (family : Nat) (buf : List Char) (size : Nat)
    (h : 9 ≤ size) :
    system_ip_address_to_str_B
        { family := family,
          value := some ['1', '0', '.', '0', '.', '0', '.', '1'] } buf size =
      (0, ['1', '0', '.', '0', '.', '0', '.', '1'] ++
        nulChar :: buf.drop 9) := by
  have hsn : snprintf_s (some ['1', '0', '.', '0', '.', '0', '.', '1'])
      buf size =
      (8, ['1', '0', '.', '0', '.', '0', '.', '1'] ++
        nulChar :: buf.drop 9) := by
    unfold snprintf_s
    rw [if_neg (by omega : ¬ size = 0)]
    have htake : (cStrOf (some ['1', '0', '.', '0', '.', '0', '.', '1'])).take
        (size - 1) = ['1', '0', '.', '0', '.', '0', '.', '1'] :=
      List.take_of_length_le (by
        have h8 : (cStrOf
            (some ['1', '0', '.', '0', '.', '0', '.', '1'])).length = 8 := rfl
        omega)
    rw [htake]
    rfl
  show (if 0 < (snprintf_s (some ['1', '0', '.', '0', '.', '0', '.', '1'])
      buf size).1 then
      ((0 : Int), (snprintf_s (some ['1', '0', '.', '0', '.', '0', '.', '1'])
        buf size).2)
    else (-1, (snprintf_s (some ['1', '0', '.', '0', '.', '0', '.', '1'])
      buf size).2)) =
      (0, ['1', '0', '.', '0', '.', '0', '.', '1'] ++ nulChar :: buf.drop 9)
  rw [hsn]
  rfl

/-- C7 witness: a concrete buffer of capacity 12. -/
theorem C7_plain_copy_witness :
    system_ip_address_to_str_B
        { family := 10, value := some ['1', '0', '.', '0', '.', '0', '.', '1'] }
        (List.replicate 12 '!') 12 =
      (0, ['1', '0', '.', '0', '.', '0', '.', '1'] ++
        nulChar :: List.replicate 3 '!') :=
  C7_plain_copy 10 (List.replicate 12 '!') 12 (by decide)

/-- The length of the text `toString` needs to place in the buffer in the
structured mode (0 for a family it does not handle). -/
def requiredLenA (a : system_ip_address_A) : Nat :=
  if a.family = AF_INET then (inet_ntop4_text (a.value.take 4)).length
  else if a.family = AF_INET6 then (inet_ntop6_text (a.value.take 16)).length
  else 0

/-- C2 counterexample: plain-text mode with stored text "10.0.0.1" and a
buffer of capacity 4 — smaller than the 8-character required output —
returns 0, not the -1 the claim requires (glibc `snprintf` reports the
untruncated length, and the code only checks that it is positive). -/
theorem C2_small_buffer_counterexample :
    (system_ip_address_to_str_B
        { family := AF_UNSPEC,
          value := some ['1', '0', '.', '0', '.', '0', '.', '1'] }
        (List.replicate 16 ' ') 4).1 = 0 ∧
    ¬ (system_ip_address_to_str_B
        { family := AF_UNSPEC,
          value := some ['1', '0', '.', '0', '.', '0', '.', '1'] }
        (List.replicate 16 ' ') 4).1 = -1 := by
  decide

/-- C2 (amended): with a buffer no larger than the required text, the
structured mode returns -1 and leaves the buffer untouched; the plain-text
mode never writes at or beyond index `buffer_size`, but it truncates
silently: the result is 0 whenever the stored text is non-empty (and -1
only when snprintf's count, the full text length, is 0). -/
theorem C2_small_buffer_amended :
    (∀ (a : system_ip_address_A) (buf : List Char) (size : Nat),
        size ≤ requiredLenA a →
        system_ip_address_to_str_A a buf size = (-1, buf)) ∧
    (∀ (b : system_ip_address_B) (buf : List Char) (size : Nat),
        ((system_ip_address_to_str_B b buf size).2).drop size =
          buf.drop size ∧
        ((system_ip_address_to_str_B b buf size).1 = 0 ↔
          0 < (cStrOf b.value).length)) := by
  constructor
  · intro a buf size hle
    unfold requiredLenA at hle
    unfold system_ip_address_to_str_A
    by_cases h4 : a.family = AF_INET
    · rw [if_pos h4] at hle
      rw [if_pos h4]
      have hnone : inet_ntop4 (a.value.take 4) buf size = none := by
        unfold inet_ntop4
        rw [if_neg (by omega)]
      rw [hnone]
    · rw [if_neg h4] at hle
      rw [if_neg h4]
      by_cases h6 : a.family = AF_INET6
      · rw [if_pos h6] at hle
        rw [if_pos h6]
        have hnone : inet_ntop6 (a.value.take 16) buf size = none := by
          unfold inet_ntop6
          rw [if_neg (by omega)]
        rw [hnone]
      · rw [if_neg h6]
  · intro b buf size
    refine ⟨?_, ?_⟩
    · show ((if 0 < (snprintf_s b.value buf size).1 then
          ((0 : Int), (snprintf_s b.value buf size).2)
        else (-1, (snprintf_s b.value buf size).2)).2).drop size =
          buf.drop size
      by_cases h : 0 < (snprintf_s b.value buf size).1
      · rw [if_pos h]
        exact snprintf_frame b.value buf size
      · rw [if_neg h]
        exact snprintf_frame b.value buf size
    · rw [to_str_B_fst]
      by_cases h : 0 < (cStrOf b.value).length
      · rw [if_pos h]
        simp [h]
      · rw [if_neg h]
        simp [h]

/-- C2 witness: the structured clause at a 9-character IPv4 text with
capacity 9, and the plain clause at capacity 1. -/
theorem C2_small_buffer_amended_witness :
    system_ip_address_to_str_A { family := 2, value := [127, 0, 0, 1] }
        (List.replicate 4 ' ') 9 = (-1, List.replicate 4 ' ') ∧
    ((system_ip_address_to_str_B { family := 0, value := some ['a', 'b'] }
        (List.replicate 4 ' ') 1).2).drop 1 =
      (List.replicate 4 ' ').drop 1 :=
  ⟨C2_small_buffer_amended.1 _ _ _ (by decide),
    (C2_small_buffer_amended.2 _ _ _).1⟩

/-- C3 counterexample: in the plain-text mode, `init` leaves `value` as a
`NULL` pointer, and glibc renders a `NULL` `%s` argument as the text
"(null)"; `snprintf` hence returns 6, so `toString` reports 0 and the
buffer holds "(null)" — not the empty string the claim requires. -/
theorem C3_init_tostring_counterexample :
    system_ip_address_to_str_B system_ip_address_init_B
        (List.replicate 8 ' ') 8 =
      (0, ['(', 'n', 'u', 'l', 'l', ')'] ++ nulChar :: [' ']) ∧
    ¬ (system_ip_address_to_str_B system_ip_address_init_B
        (List.replicate 8 ' ') 8).2 = nulChar :: List.replicate 7 ' ' := by
  decide

/-- C3 (amended): `init` followed by `toString` returns -1 in the
structured mode (family `AF_UNSPEC` is unhandled, so the buffer is also
untouched); in the plain-text mode it returns 0, and the text written is
glibc's "(null)" rendering of the `NULL` pointer, not the empty string. -/
theorem C3_init_tostring_amended :
    (∀ (buf : List Char) (size : Nat),
        system_ip_address_to_str_A system_ip_address_init_A buf size =
          (-1, buf)) ∧
    (∀ (buf : List Char) (size : Nat),
        (system_ip_address_to_str_B system_ip_address_init_B buf size).1 =
          0) ∧
    (∀ (buf : List Char) (size : Nat), 7 ≤ size →
        system_ip_address_to_str_B system_ip_address_init_B buf size =
          (0, ['(', 'n', 'u', 'l', 'l', ')'] ++ nulChar :: buf.drop 7)) := by
  refine ⟨?_, ?_, ?_⟩
  · intro buf size
    unfold system_ip_address_to_str_A
    rw [if_neg (by decide), if_neg (by decide)]
  · intro buf size
    rw [to_str_B_fst]
    rw [if_pos (by decide)]
  · intro buf size h
    have hsn : snprintf_s system_ip_address_init_B.value buf size =
        (6, ['(', 'n', 'u', 'l', 'l', ')'] ++ nulChar :: buf.drop 7) := by
      unfold snprintf_s
      rw [if_neg (by omega : ¬ size = 0)]
      have htake : (cStrOf system_ip_address_init_B.value).take (size - 1) =
          ['(', 'n', 'u', 'l', 'l', ')'] :=
        List.take_of_length_le (by
          have h6 : (cStrOf system_ip_address_init_B.value).length = 6 := rfl
          omega)
      rw [htake]
      rfl
    show (if 0 < (snprintf_s system_ip_address_init_B.value buf size).1 then
        ((0 : Int), (snprintf_s system_ip_address_init_B.value buf size).2)
      else (-1, (snprintf_s system_ip_address_init_B.value buf size).2)) =
        (0, ['(', 'n', 'u', 'l', 'l', ')'] ++ nulChar :: buf.drop 7)
    rw [hsn]
    rfl

/-- C3 witness: concrete buffers for all three clauses. -/
theorem C3_init_tostring_amended_witness :
    system_ip_address_to_str_A system_ip_address_init_A
        (List.replicate 3 'q') 3 = (-1, List.replicate 3 'q') ∧
    system_ip_address_to_str_B system_ip_address_init_B
        (List.replicate 9 'q') 9 =
      (0, ['(', 'n', 'u', 'l', 'l', ')'] ++ nulChar :: List.replicate 2 'q') :=
  ⟨C3_init_tostring_amended.1 _ _,
    C3_init_tostring_amended.2.2 (List.replicate 9 'q') 9 (by decide)⟩

/-- C6: `getClockInfo` raises (`Except.error`) exactly when `localtime`
fails on the current time, `sysinfo` fails, or `localtime` fails on the
boot time (current time minus uptime); any such failure aborts the whole
call with no partial result.  On success the result is exactly the two
timestamps formatted with the fixed `"%FT%TZ"`/`"%Y-%m-%dT%H:%M:%SZ"`
format applied to the local-time values.  (`time(NULL)` itself is modelled
as infallible: with a `NULL` argument it cannot fail on Linux, and the code
does not inspect it; `strftime` into the 256-byte buffer always fits this
20-character format.) -/
theorem C6_clock_error_iff (env : ClockEnv) :
    ((∃ msg, getClockInfo env = .error msg) ↔
        env.localtimeFn env.timeNow = none ∨ env.sysinfoUptime = none ∨
          (∃ u, env.sysinfoUptime = some u ∧
            env.localtimeFn (env.timeNow - u) = none)) ∧
    (∀ ts u ts2, env.localtimeFn env.timeNow = some ts →
        env.sysinfoUptime = some u →
        env.localtimeFn (env.timeNow - u) = some ts2 →
        getClockInfo env = .ok { BootDatetime := strftimeFTZ ts2,
                                 CurrentDatetime := strftimeFTZ ts }) := by
  unfold getClockInfo
  rcases h1 : env.localtimeFn env.timeNow with _ | ts
  · simp [h1]
  · rcases h2 : env.sysinfoUptime with _ | u
    · simp [h1, h2]
    · rcases h3 : env.localtimeFn (env.timeNow - u) with _ | ts2
      · simp [h1, h2, h3]
        intro ts' u' ts2' hts hu
        subst hts
        subst hu
        rw [h3]
        simp
      · simp [h1, h2, h3]
        intro ts' u' ts2' hts hu hlt
        subst hts
        subst hu
        rw [h3] at hlt
        injection hlt with hinj
        subst hinj
        exact ⟨rfl, rfl⟩

/-- A host environment in which every `localtime` call fails. -/
def clockEnvFailing : ClockEnv :=
  { timeNow := 0, localtimeFn := fun _ => none, sysinfoUptime := none }

/-- A host environment in which every call succeeds and `localtime` always
reports midnight, 1970-01-01. -/
def clockEnvEpoch : ClockEnv :=
  { timeNow := 0, localtimeFn := fun _ => some ⟨0, 0, 0, 1, 0, 70⟩,
    sysinfoUptime := some 0 }

/-- C6 witness: a failing environment raises, and a succeeding one returns
the two formatted timestamps. -/
theorem C6_clock_error_iff_witness :
    (∃ msg, getClockInfo clockEnvFailing = .error msg) ∧
    getClockInfo clockEnvEpoch =
      .ok { BootDatetime := strftimeFTZ ⟨0, 0, 0, 1, 0, 70⟩,
            CurrentDatetime := strftimeFTZ ⟨0, 0, 0, 1, 0, 70⟩ } :=
  ⟨(C6_clock_error_iff clockEnvFailing).1.mpr (Or.inl rfl),
    (C6_clock_error_iff clockEnvEpoch).2 _ _ _ rfl rfl rfl⟩

/-- A timezone-offset function with a daylight-saving fall-back: one hour
ahead of UTC before instant 1800, at UTC from then on (as `localtime` does
across an autumn DST transition). -/
def dstFallOffset (t : Int) : Int := if t < 1800 then 3600 else 0

/-- A host environment sampled 1800 seconds after the epoch with 900
seconds of uptime, in the `dstFallOffset` timezone. -/
def clockEnvDstFall : ClockEnv :=
  { timeNow := 1800, localtimeFn := localtimeAt dstFallOffset,
    sysinfoUptime := some 900 }

/-- The environment `getClockInfo` sees in a run with timezone-offset
function `off`, current time `now` and uptime `up`, all calls
succeeding. -/
def clockEnvAt (off : Int → Int) (now up : Int) : ClockEnv :=
  { timeNow := now, localtimeFn := localtimeAt off,
    sysinfoUptime := some up }

/-- C5 counterexample: `localtime` works in local time, so a
daylight-saving fall-back during the uptime breaks the claim: with
`dstFallOffset`, now = 1800 and uptime = 900, the boot instant 900 formats
as 01:15:00 local but the current instant 1800 as 00:30:00 local —
`CurrentDatetime` is lexicographically smaller than `BootDatetime`. -/
theorem C5_clock_monotone_counterexample :
    getClockInfo clockEnvDstFall =
      .ok { BootDatetime := "1970-01-01T01:15:00Z",
            CurrentDatetime := "1970-01-01T00:30:00Z" } ∧
    ¬ (("1970-01-01T01:15:00Z" : String) ≤ "1970-01-01T00:30:00Z") := by
  refine ⟨rfl, ?_⟩
  exact not_le.mpr (String.lt_iff_toList_lt.mpr (by decide))

/-- C5 (amended): within one process run, when the timezone offset
`localtime` applies at the boot instant equals the one it applies at the
current instant (no DST change during the uptime), the uptime is
non-negative, the local boot time is not before the epoch and the current
local year is at most 9999, `CurrentDatetime` is lexicographically at
least `BootDatetime`. -/
theorem C5_clock_monotone_amended (off : Int → Int) (now up : Int)
    (c : ClockInfo) (hup : 0 ≤ up)
    (_hboot : 0 ≤ now - up + off (now - up))
    (hoff : off (now - up) = off now)
    (hy : (dateOfDay ((now + off now).toNat / 86400)).year ≤ 9999)
    (hok : getClockInfo (clockEnvAt off now up) = .ok c) :
    c.BootDatetime ≤ c.CurrentDatetime := by
  have hred : getClockInfo (clockEnvAt off now up) =
      .ok { BootDatetime :=
              strftimeFTZ (civilOfSecs (now - up + off (now - up)).toNat),
            CurrentDatetime :=
              strftimeFTZ (civilOfSecs (now + off now).toNat) } := rfl
  rw [hred] at hok
  injection hok with hinj
  subst hinj
  show String.mk
      (strftimeChars (civilOfSecs (now - up + off (now - up)).toNat)) ≤
    String.mk (strftimeChars (civilOfSecs (now + off now).toNat))
  apply string_le_of_lexLe
  apply civil_mono ?_ hy
  apply Int.toNat_le_toNat
  rw [hoff]
  omega

/-- C5 witness: constant zero offset, current time 90000 s after the
epoch, uptime 3600 s. -/
theorem C5_clock_monotone_amended_witness :
    ("1970-01-02T00:00:00Z" : String) ≤ "1970-01-02T01:00:00Z" :=
  C5_clock_monotone_amended (fun _ => 0) 90000 3600
    { BootDatetime := "1970-01-02T00:00:00Z",
      CurrentDatetime := "1970-01-02T01:00:00Z" }
    (by decide) (by decide) rfl (by decide) rfl
